import Mathlib

/-!
Verification of the scheduling and failure-escalation engine of
`claude_health_check_cli.py` (class `ClaudeCodeHealthCheck`).

Time is modelled as an integer count of microseconds on the local-time line
(`datetime` objects carry microsecond resolution; `replace(microsecond=0)`
and the `int(...)` truncation of `timestamp()` are therefore expressible).
Command-line timestamps (`--unix-timestamp`, the resume record) are integer
epoch seconds, converted to microseconds on entry, exactly as
`datetime.fromtimestamp` does.  Python truthiness of the optional integer
arguments (`if first_run_timestamp:`) is modelled by `truthy`, which treats
both `None` and `0` as false.
-/

namespace ClaudeHealthCheck


/-- Microseconds per second. -/
def usPerSec : Int := 1000000

/-- Microseconds per hour (3600 seconds). -/
def usPerHour : Int := 3600000000

/-- Microseconds per day (86400 seconds). -/
def usPerDay : Int := 86400000000

/-- Midnight of the calendar day containing `t` (the instant `t` with its
time-of-day fields cleared), as computed by `t.replace(hour=0, minute=0,
second=0, microsecond=0)` on the local-time line. -/
def dayStart (t : Int) : Int := t - t % usPerDay

/-- Python `t.replace(hour=h, minute=m, second=s, microsecond=0)`: same
calendar day as `t`, with the given wall-clock time of day. -/
def replaceTime (t : Int) (h m s : Int) : Int :=
  dayStart t + ((h * 60 + m) * 60 + s) * usPerSec

/-- Python truthiness of an optional integer argument: `None` and `0` are
falsy, every other integer is truthy. -/
def truthy : Option Int → Bool
  | none => false
  | some x => x != 0

/-- The method `calculate_next_run_time(first_run_timestamp,
resume_from_timestamp)` (source lines 373-409).  `now` is the current
instant; the two optional arguments are epoch seconds.
- `first_run_timestamp` truthy: `datetime.fromtimestamp(first_run_timestamp)`
  verbatim.
- `resume_from_timestamp` truthy: `last_run + 5h`; if that is `<= now`,
  `now` (run immediately).
- otherwise: today at 16:01:10 local, pushed to tomorrow when
  `now > first_run`. -/
def calculate_next_run_time (now : Int)
    (first_run_timestamp resume_from_timestamp : Option Int) : Int :=
  if truthy first_run_timestamp then
    first_run_timestamp.getD 0 * usPerSec
  else if truthy resume_from_timestamp then
    let last_run := resume_from_timestamp.getD 0 * usPerSec
    let next_run := last_run + 5 * usPerHour
    if next_run ≤ now then now else next_run
  else
    let first_run := replaceTime now 16 1 10
    if first_run < now then first_run + usPerDay else first_run

/-- The method `calculate_next_daily_reset()` (source lines 411-432).  The configured
`daily_reset_time` is the parsed `"HH:MM"` pair (`None`/empty string is
`none`).  Today at `HH:MM:10`; if `now >= today_reset`, tomorrow. -/
def calculate_next_daily_reset (daily_reset_time : Option (Int × Int))
    (now : Int) : Option Int :=
  match daily_reset_time with
  | none => none
  | some (h, m) =>
    let today_reset := replaceTime now h m 10
    some (if today_reset ≤ now then today_reset + usPerDay else today_reset)

/-- The effect of one `run_health_check()` call (source lines 338-371) on
`self.failure_count`, given the probe outcome `success`: the new counter and
whether `send_webhook_alert` is invoked (alert after 3 consecutive
failures, re-issued on every later consecutive failure). -/
def run_health_check (failure_count : Nat) (success : Bool) : Nat × Bool :=
  if success then (0, false)
  else (failure_count + 1, decide (3 ≤ failure_count + 1))

/-- A sequence of `run_health_check()` calls: final counter and the list of
alert decisions, in order. -/
def run_health_check_seq (failure_count : Nat) : List Bool → Nat × List Bool
  | [] => (failure_count, [])
  | r :: rest =>
    let step := run_health_check failure_count r
    let tail := run_health_check_seq step.1 rest
    (tail.1, step.2 :: tail.2)

/-- Outcome of one webhook delivery attempt by the external endpoint:
either an HTTP status code or a raised exception (connection error,
timeout, ...). -/
inductive DeliveryOutcome
  | status (code : Nat)
  | raised (msg : String)
  deriving Repr, DecidableEq

/-- The method `send_webhook_alert(subject, message)` (source lines 225-249): returns
`False` without sending when no webhook URL is configured; otherwise
returns `True` exactly on HTTP 200, and the `try/except` converts any
raised exception into a logged `False` — a delivery failure never
propagates to the caller. -/
def send_webhook_alert (webhook_url : Option String)
    (outcome : DeliveryOutcome) : Bool :=
  match webhook_url with
  | none => false
  | some _ =>
    match outcome with
    | .status code => code == 200
    | .raised _ => false

/-- The mutable scheduling state of the `start_scheduler` loop: the next
interval-fire instant `next_run` and the optional next daily-reset
instant. -/
structure SchedulerState where
  next_run : Int
  next_daily_reset : Option Int
  deriving Repr, DecidableEq

/-- Everything one polling tick of the `while True` loop does besides
logging: the updated state, whether a probe thread was dispatched, whether
the fired event was the daily reset, and the epoch-seconds value written to
`last_run_timestamp.txt` (if any). -/
structure TickResult where
  state : SchedulerState
  dispatched : Bool
  reset_fired : Bool
  persisted : Option Int
  deriving Repr, DecidableEq

/-- One polling tick of `start_scheduler`'s loop (source lines 549-604).
`daily_reset_time` is the parsed configuration used by
`calculate_next_daily_reset` when the reset event recomputes the next
reset.  The guard mirrors the source: the reset branch requires a
configured `next_daily_reset` with
`time_to_daily_reset <= time_to_next_run` and `now >= next_daily_reset`;
otherwise the interval branch fires when `now >= next_run`.  Both firing
branches write `int(now.timestamp())` (truncation toward zero, `Int.tdiv`)
and set `next_run = now + 5h`. -/
def scheduler_tick (daily_reset_time : Option (Int × Int))
    (st : SchedulerState) (now : Int) : TickResult :=
  let fire_reset :=
    match st.next_daily_reset with
    | some ndr => decide (ndr - now ≤ st.next_run - now) && decide (ndr ≤ now)
    | none => false
  if fire_reset then
    { state := { next_run := now + 5 * usPerHour,
                 next_daily_reset := calculate_next_daily_reset daily_reset_time now },
      dispatched := true
      reset_fired := true
      persisted := some (Int.tdiv now usPerSec) }
  else if st.next_run ≤ now then
    { state := { st with next_run := now + 5 * usPerHour },
      dispatched := true
      reset_fired := false
      persisted := some (Int.tdiv now usPerSec) }
  else
    { state := st, dispatched := false, reset_fired := false, persisted := none }

/-- One polling tick with the persistence write made fallible.  In the
source the firing branches run `with open('last_run_timestamp.txt', 'w')
as f: f.write(...)` with no surrounding `try/except` inside
`start_scheduler`, so a raised `OSError` propagates out of the `while`
loop; `persist_ok = false` models such a raise and the `Except.error`
result is the propagated exception. -/
def scheduler_tick_exc (daily_reset_time : Option (Int × Int))
    (persist_ok : Bool) (st : SchedulerState) (now : Int) :
    Except String TickResult :=
  let fire_reset :=
    match st.next_daily_reset with
    | some ndr => decide (ndr - now ≤ st.next_run - now) && decide (ndr ≤ now)
    | none => false
  if fire_reset then
    if persist_ok then
      .ok { state := { next_run := now + 5 * usPerHour,
                       next_daily_reset := calculate_next_daily_reset daily_reset_time now },
            dispatched := true
            reset_fired := true
            persisted := some (Int.tdiv now usPerSec) }
    else .error "PersistenceWriteFailure"
  else if st.next_run ≤ now then
    if persist_ok then
      .ok { state := { st with next_run := now + 5 * usPerHour },
            dispatched := true
            reset_fired := false
            persisted := some (Int.tdiv now usPerSec) }
    else .error "PersistenceWriteFailure"
  else
    .ok { state := st, dispatched := false, reset_fired := false, persisted := none }

/-- The initial choice of `next_run` at the top of `start_scheduler`
(source lines 449-463): only when a daily reset is configured *and*
neither optional timestamp argument is truthy is the daily-reset instant
compared against the default candidate (`<=` on the two times-to-fire);
in every other case `calculate_next_run_time` is used unchanged. -/
def choose_initial_next_run (daily_reset_time : Option (Int × Int))
    (first_run_timestamp resume_from_timestamp : Option Int)
    (now : Int) : Int :=
  match calculate_next_daily_reset daily_reset_time now with
  | some next_daily_reset =>
    if !truthy first_run_timestamp && !truthy resume_from_timestamp then
      let default_next_run :=
        calculate_next_run_time now first_run_timestamp resume_from_timestamp
      if next_daily_reset - now ≤ default_next_run - now then next_daily_reset
      else default_next_run
    else
      calculate_next_run_time now first_run_timestamp resume_from_timestamp
  | none => calculate_next_run_time now first_run_timestamp resume_from_timestamp

/-! Helper lemmas shared by the claim theorems. -/

/-- The default branch of `calculate_next_run_time` in closed form. -/
lemma calculate_next_run_time_default_eq (now : Int) :
    calculate_next_run_time now none none =
      if replaceTime now 16 1 10 < now then replaceTime now 16 1 10 + usPerDay
      else replaceTime now 16 1 10 := rfl

/-- The resume branch of `calculate_next_run_time` in closed form. -/
lemma calculate_next_run_time_resume_eq (now : Int) (last_run : Int)
    (h : last_run ≠ 0) :
    calculate_next_run_time now none (some last_run) =
      if last_run * usPerSec + 5 * usPerHour ≤ now then now
      else last_run * usPerSec + 5 * usPerHour := by
  simp [calculate_next_run_time, truthy, h]

/-- The configured branch of `calculate_next_daily_reset` in closed form. -/
lemma calculate_next_daily_reset_eq (h m : Int) (now : Int) :
    calculate_next_daily_reset (some (h, m)) now =
      some (if replaceTime now h m 10 ≤ now then replaceTime now h m 10 + usPerDay
            else replaceTime now h m 10) := rfl

/-- Alert decisions of a run of `n` consecutive failures, in closed form:
starting from counter `failure_count`, the `i`-th failure alerts exactly
when the counter it produces, `failure_count + i + 1`, has reached 3. -/
lemma run_health_check_seq_replicate_false (n : Nat) : ∀ failure_count : Nat,
    run_health_check_seq failure_count (List.replicate n false)
      = (failure_count + n,
         (List.range n).map fun i => decide (3 ≤ failure_count + i + 1)) := by
  induction n with
  | zero => intro fc; simp [run_health_check_seq]
  | succ k ih =>
    intro fc
    simp only [List.replicate_succ, run_health_check_seq, run_health_check,
      Bool.false_eq_true, if_false]
    rw [ih (fc + 1)]
    refine Prod.ext (by omega) ?_
    simp only [List.range_succ_eq_map, List.map_cons, List.map_map]
    refine congrArg₂ List.cons (by simp [decide_eq_decide]) ?_
    apply List.map_congr_left
    intro i _
    simp only [Function.comp_apply, decide_eq_decide, Nat.succ_eq_add_one]
    omega

/-! Theorems for the claims. -/

/-- C3: with neither an explicit timestamp nor a resume timestamp,
`calculate_next_run_time` returns today's 16:01:10 local instant whenever
`now` has not yet passed it, and the same wall-clock instant on the
following day whenever `now` is strictly after it. -/
theorem default_first_fire_rule (now : Int) :
    dayStart (replaceTime now 16 1 10) = dayStart now
    ∧ replaceTime now 16 1 10 % usPerDay = 57670 * usPerSec
    ∧ (now ≤ replaceTime now 16 1 10 →
        calculate_next_run_time now none none = replaceTime now 16 1 10)
    ∧ (replaceTime now 16 1 10 < now →
        calculate_next_run_time now none none = replaceTime now 16 1 10 + usPerDay)
    ∧ dayStart (replaceTime now 16 1 10 + usPerDay) = dayStart now + usPerDay
    ∧ (replaceTime now 16 1 10 + usPerDay) % usPerDay = 57670 * usPerSec := by
  refine ⟨?_, ?_, fun h => ?_, fun h => ?_, ?_, ?_⟩
  · simp only [replaceTime, dayStart, usPerDay, usPerSec]; omega
  · simp only [replaceTime, dayStart, usPerDay, usPerSec]; omega
  · rw [calculate_next_run_time_default_eq, if_neg (not_lt.mpr h)]
  · rw [calculate_next_run_time_default_eq, if_pos h]
  · simp only [replaceTime, dayStart, usPerDay, usPerSec]; omega
  · simp only [replaceTime, dayStart, usPerDay, usPerSec]; omega

/-- Witness for C3: at noon the first fire is today's 16:01:10; at 17:00
it is tomorrow's 16:01:10. -/
theorem default_first_fire_rule_witness :
    calculate_next_run_time (12 * usPerHour) none none
      = replaceTime (12 * usPerHour) 16 1 10
    ∧ calculate_next_run_time (17 * usPerHour) none none
      = replaceTime (17 * usPerHour) 16 1 10 + usPerDay :=
  ⟨(default_first_fire_rule (12 * usPerHour)).2.2.1 (by decide),
   (default_first_fire_rule (17 * usPerHour)).2.2.2.1 (by decide)⟩

/-- C4: with a (truthy) resume timestamp, `calculate_next_run_time`
returns `last_run + 5h` when that instant is strictly after `now`,
otherwise `now` itself; the result is never in the past. -/
theorem resume_fire_rule (last_run : Int) (now : Int) (h : last_run ≠ 0) :
    (now < last_run * usPerSec + 5 * usPerHour →
      calculate_next_run_time now none (some last_run)
        = last_run * usPerSec + 5 * usPerHour)
    ∧ (last_run * usPerSec + 5 * usPerHour ≤ now →
      calculate_next_run_time now none (some last_run) = now)
    ∧ now ≤ calculate_next_run_time now none (some last_run) := by
  rw [calculate_next_run_time_resume_eq now last_run h]
  refine ⟨fun hlt => by rw [if_neg (not_le.mpr hlt)],
          fun hle => by rw [if_pos hle], ?_⟩
  split
  · exact le_refl now
  · omega

/-- Witness for C4: resuming from epoch second 1000 at `now = 0` schedules
1000s + 5h, which is not in the past. -/
theorem resume_fire_rule_witness :
    calculate_next_run_time 0 none (some 1000) = 1000 * usPerSec + 5 * usPerHour
    ∧ calculate_next_run_time (1000 * usPerSec + 6 * usPerHour) none (some 1000)
        = 1000 * usPerSec + 6 * usPerHour
    ∧ (0 : Int) ≤ calculate_next_run_time 0 none (some 1000) :=
  ⟨(resume_fire_rule 1000 0 (by decide)).1 (by decide),
   (resume_fire_rule 1000 (1000 * usPerSec + 6 * usPerHour) (by decide)).2.1 (by decide),
   (resume_fire_rule 1000 0 (by decide)).2.2⟩

/-- C5: `calculate_next_daily_reset` returns `none` when no daily-reset
time is configured; with a configured `HH:MM` it returns today's instant
at `HH:MM` with the seconds field fixed at 10, or tomorrow's occurrence
when today's is already `≤ now`. -/
theorem daily_reset_rule (h m : Int) (now : Int)
    (hh0 : 0 ≤ h) (hh : h ≤ 23) (hm0 : 0 ≤ m) (hm : m ≤ 59) :
    calculate_next_daily_reset none now = none
    ∧ dayStart (replaceTime now h m 10) = dayStart now
    ∧ replaceTime now h m 10 % usPerDay = ((h * 60 + m) * 60 + 10) * usPerSec
    ∧ (now < replaceTime now h m 10 →
        calculate_next_daily_reset (some (h, m)) now
          = some (replaceTime now h m 10))
    ∧ (replaceTime now h m 10 ≤ now →
        calculate_next_daily_reset (some (h, m)) now
          = some (replaceTime now h m 10 + usPerDay)) := by
  refine ⟨rfl, ?_, ?_, fun hlt => ?_, fun hle => ?_⟩
  · simp only [replaceTime, dayStart, usPerDay, usPerSec]; omega
  · simp only [replaceTime, dayStart, usPerDay, usPerSec]; omega
  · rw [calculate_next_daily_reset_eq, if_neg (not_le.mpr hlt)]
  · rw [calculate_next_daily_reset_eq, if_pos hle]

/-- Witness for C5: with reset time 08:30 and `now` = 09:00, today's
08:30:10 has passed, so the next reset is tomorrow's occurrence. -/
theorem daily_reset_rule_witness :
    calculate_next_daily_reset (some (8, 30)) (9 * usPerHour)
      = some (replaceTime (9 * usPerHour) 8 30 10 + usPerDay)
    ∧ calculate_next_daily_reset (some (8, 30)) (8 * usPerHour)
      = some (replaceTime (8 * usPerHour) 8 30 10) :=
  ⟨(daily_reset_rule 8 30 (9 * usPerHour) (by decide) (by decide) (by decide)
      (by decide)).2.2.2.2 (by decide),
   (daily_reset_rule 8 30 (8 * usPerHour) (by decide) (by decide) (by decide)
      (by decide)).2.2.2.1 (by decide)⟩

/-- C2: success resets the consecutive-failure counter to 0 with no alert;
failure increments it by exactly 1 and invokes an alert exactly when the
new value has reached 3; over `n` consecutive failures from a fresh
tracker the alert fires on the 3rd, 4th, 5th, ... failure with no
debounce. -/
theorem failure_tracker_policy :
    (∀ failure_count : Nat, run_health_check failure_count true = (0, false))
    ∧ (∀ failure_count : Nat,
        (run_health_check failure_count false).1 = failure_count + 1
        ∧ ((run_health_check failure_count false).2 = true ↔ 3 ≤ failure_count + 1))
    ∧ (∀ n : Nat,
        run_health_check_seq 0 (List.replicate n false)
          = (n, (List.range n).map fun i => decide (3 ≤ i + 1))) := by
  refine ⟨fun fc => rfl, fun fc => ⟨rfl, by simp [run_health_check]⟩, fun n => ?_⟩
  have h := run_health_check_seq_replicate_false n 0
  simpa using h

/-- C8: the tracker state is exactly the counter.  A success hands every
subsequent result sequence the fresh-tracker behaviour, so three failures,
a success, and three more failures alert on the 3rd failure of each
streak, exactly as a fresh tracker on three failures does. -/
theorem no_hidden_tracker_state :
    (∀ (failure_count : Nat) (rest : List Bool),
      run_health_check_seq failure_count (true :: rest)
        = ((run_health_check_seq 0 rest).1,
           false :: (run_health_check_seq 0 rest).2))
    ∧ run_health_check_seq 0 [false, false, false, true, false, false, false]
        = (3, [false, false, true, false, false, false, true])
    ∧ run_health_check_seq 0 [false, false, false] = (3, [false, false, true]) := by
  exact ⟨fun fc rest => rfl, by decide, by decide⟩

/-- C1: on a tick where a daily reset is pending (today's configured
instant), it is `≤` the next interval fire, and `now` has reached it, the
loop fires the reset event: it dispatches a probe, persists `now` (in
truncated epoch seconds) as the resume record, re-anchors the interval to
`now + 5h`, and advances the daily reset to the following day's
occurrence. -/
theorem reset_event_preempts_interval (cfgh cfgm : Int) (st : SchedulerState)
    (now : Int)
    (hconf : st.next_daily_reset = some (replaceTime now cfgh cfgm 10))
    (hpre : replaceTime now cfgh cfgm 10 ≤ st.next_run)
    (hdue : replaceTime now cfgh cfgm 10 ≤ now) :
    scheduler_tick (some (cfgh, cfgm)) st now =
      { state := { next_run := now + 5 * usPerHour,
                   next_daily_reset := some (replaceTime now cfgh cfgm 10 + usPerDay) },
        dispatched := true
        reset_fired := true
        persisted := some (Int.tdiv now usPerSec) } := by
  have hcond : (decide (replaceTime now cfgh cfgm 10 - now ≤ st.next_run - now)
      && decide (replaceTime now cfgh cfgm 10 ≤ now)) = true := by
    simp only [Bool.and_eq_true, decide_eq_true_eq]
    exact ⟨sub_le_sub_right hpre now, hdue⟩
  simp only [scheduler_tick, hconf, hcond, if_true,
    calculate_next_daily_reset_eq, if_pos hdue]

/-- Witness for C1: at 10:00 with the daily reset configured for 08:00
(pending instant 08:00:10, interval fire at 16:00), the tick fires the
reset event. -/
theorem reset_event_preempts_interval_witness :
    scheduler_tick (some (8, 0))
        { next_run := 16 * usPerHour,
          next_daily_reset := some (replaceTime (10 * usPerHour) 8 0 10) }
        (10 * usPerHour)
      = { state := { next_run := 10 * usPerHour + 5 * usPerHour,
                     next_daily_reset :=
                       some (replaceTime (10 * usPerHour) 8 0 10 + usPerDay) },
          dispatched := true
          reset_fired := true
          persisted := some (Int.tdiv (10 * usPerHour) usPerSec) } :=
  reset_event_preempts_interval 8 0 _ _ rfl (by decide) (by decide)

/-- C6 counterexample: with a daily reset at 08:00, `now` = 06:00 and an
explicit first-run timestamp for 12:00 (epoch second 43200), the pending
reset instant 08:00:10 has the smaller time-to-fire, yet `start_scheduler`
anchors on the explicit timestamp: the comparison is skipped whenever an
explicit or resume timestamp is supplied, contradicting the claim that
the selection also applies combined with `--unix-timestamp`. -/
theorem initial_anchor_counterexample :
    calculate_next_daily_reset (some (8, 0)) (21600 * usPerSec)
      = some (28810 * usPerSec)
    ∧ 28810 * usPerSec - 21600 * usPerSec ≤ 43200 * usPerSec - 21600 * usPerSec
    ∧ choose_initial_next_run (some (8, 0)) (some 43200) none (21600 * usPerSec)
        = 43200 * usPerSec
    ∧ (43200 : Int) * usPerSec ≠ 28810 * usPerSec := by
  exact ⟨by decide, by decide, by decide, by decide⟩

/-- C6 (amended): the daily-reset-versus-interval selection applies only
when neither an explicit first-run timestamp nor a resume timestamp is
supplied; in that case the daily reset wins exactly when its time-to-fire
is `≤` the candidate's.  With a truthy explicit or resume timestamp the
`calculate_next_run_time` result is used unconditionally. -/
theorem initial_anchor_rule (daily : Option (Int × Int))
    (fts rts : Option Int) (now : Int) :
    (truthy fts = true →
      choose_initial_next_run daily fts rts now
        = calculate_next_run_time now fts rts)
    ∧ (truthy rts = true →
      choose_initial_next_run daily fts rts now
        = calculate_next_run_time now fts rts)
    ∧ (truthy fts = false → truthy rts = false →
      ∀ ndr, calculate_next_daily_reset daily now = some ndr →
        (ndr - now ≤ calculate_next_run_time now fts rts - now →
          choose_initial_next_run daily fts rts now = ndr)
        ∧ (calculate_next_run_time now fts rts - now < ndr - now →
          choose_initial_next_run daily fts rts now
            = calculate_next_run_time now fts rts)) := by
  unfold choose_initial_next_run
  cases hd : calculate_next_daily_reset daily now with
  | none =>
    refine ⟨fun _ => rfl, fun _ => rfl, fun _ _ ndr hn => ?_⟩
    exact absurd hn (by simp)
  | some ndr0 =>
    refine ⟨fun hf => ?_, fun hr => ?_, fun hf hr ndr hn => ?_⟩
    · simp [hf]
    · simp [hr]
    · obtain rfl : ndr0 = ndr := by injection hn
      simp only [hf, hr, Bool.not_false, Bool.and_self, if_true]
      exact ⟨fun hle => if_pos hle, fun hgt => if_neg (not_le.mpr hgt)⟩

/-- Witness for C6: with the explicit timestamp the selection is skipped;
with no timestamps the earlier daily reset wins. -/
theorem initial_anchor_rule_witness :
    choose_initial_next_run (some (8, 0)) (some 43200) none (21600 * usPerSec)
      = calculate_next_run_time (21600 * usPerSec) (some 43200) none
    ∧ choose_initial_next_run (some (8, 0)) none none (21600 * usPerSec)
      = 28810 * usPerSec :=
  ⟨(initial_anchor_rule (some (8, 0)) (some 43200) none (21600 * usPerSec)).1
      (by decide),
   ((initial_anchor_rule (some (8, 0)) none none (21600 * usPerSec)).2.2
      rfl rfl (28810 * usPerSec) (by decide)).1 (by decide)⟩

/-- C7: the resume record persisted by a firing tick at instant `T` is
`int(T.timestamp())`; a fresh process reading it back under `--resume`
computes its next interval fire as the recorded second plus 5 hours, or
its own current time when that sum is already past. -/
theorem resume_round_trip (daily : Option (Int × Int)) (st : SchedulerState)
    (T now2 : Int)
    (hplain : st.next_daily_reset = none)
    (hfire : st.next_run ≤ T)
    (hrec : Int.tdiv T usPerSec ≠ 0) :
    (scheduler_tick none st T).persisted = some (Int.tdiv T usPerSec)
    ∧ (now2 < Int.tdiv T usPerSec * usPerSec + 5 * usPerHour →
        choose_initial_next_run daily none (some (Int.tdiv T usPerSec)) now2
          = Int.tdiv T usPerSec * usPerSec + 5 * usPerHour)
    ∧ (Int.tdiv T usPerSec * usPerSec + 5 * usPerHour ≤ now2 →
        choose_initial_next_run daily none (some (Int.tdiv T usPerSec)) now2
          = now2) := by
  have hresume : choose_initial_next_run daily none (some (Int.tdiv T usPerSec)) now2
      = calculate_next_run_time now2 none (some (Int.tdiv T usPerSec)) := by
    unfold choose_initial_next_run
    cases calculate_next_daily_reset daily now2 with
    | none => rfl
    | some ndr => simp [truthy, hrec]
  refine ⟨?_, fun hlt => ?_, fun hle => ?_⟩
  · simp [scheduler_tick, hplain, hfire]
  · rw [hresume, calculate_next_run_time_resume_eq now2 _ hrec,
      if_neg (not_le.mpr hlt)]
  · rw [hresume, calculate_next_run_time_resume_eq now2 _ hrec, if_pos hle]

/-- Witness for C7: a tick firing at `T` = 1700000000.5 s persists epoch
second 1700000000, and a fresh resume at `now` = 0 schedules that second
plus 5 hours. -/
theorem resume_round_trip_witness :
    (scheduler_tick none { next_run := 0, next_daily_reset := none }
        1700000000500000).persisted
      = some (Int.tdiv 1700000000500000 usPerSec)
    ∧ choose_initial_next_run none none
        (some (Int.tdiv 1700000000500000 usPerSec)) 0
      = Int.tdiv 1700000000500000 usPerSec * usPerSec + 5 * usPerHour :=
  ⟨(resume_round_trip none { next_run := 0, next_daily_reset := none }
      1700000000500000 0 rfl (by decide) (by decide)).1,
   (resume_round_trip none { next_run := 0, next_daily_reset := none }
      1700000000500000 0 rfl (by decide) (by decide)).2.1 (by decide)⟩

/-- C9: the source contradicts the requirement that a persistence write
failure never aborts the loop.  A notifier delivery failure is indeed
swallowed by `send_webhook_alert`'s `try/except` (it returns `False`),
but the unguarded `open('last_run_timestamp.txt', 'w')` write in a firing
tick propagates the exception out of the `while` loop, terminating
`start_scheduler`. -/
theorem persistence_failure_aborts_loop :
    send_webhook_alert (some "https://example.invalid/webhook")
        (DeliveryOutcome.raised "connection error") = false
    ∧ scheduler_tick_exc none false { next_run := 0, next_daily_reset := none } 0
        = Except.error "PersistenceWriteFailure" := by
  exact ⟨rfl, rfl⟩

/-- C10: the persisted resume record is the dispatch instant `T` truncated
to whole epoch seconds: it is `≤ T`, more recent than `T` minus one
second, differs from `T` whenever `T` has a sub-second part, and the
recomputed next fire is the recovered second plus 5 hours — not exactly
`T + 5h` when sub-second precision was discarded. -/
theorem persisted_record_is_floor (T now2 : Int) (hT : 0 ≤ T)
    (hrec : Int.tdiv T usPerSec ≠ 0) :
    Int.tdiv T usPerSec * usPerSec ≤ T
    ∧ T - usPerSec < Int.tdiv T usPerSec * usPerSec
    ∧ (T % usPerSec ≠ 0 →
        Int.tdiv T usPerSec * usPerSec ≠ T
        ∧ Int.tdiv T usPerSec * usPerSec + 5 * usPerHour ≠ T + 5 * usPerHour)
    ∧ (now2 < Int.tdiv T usPerSec * usPerSec + 5 * usPerHour →
        calculate_next_run_time now2 none (some (Int.tdiv T usPerSec))
          = Int.tdiv T usPerSec * usPerSec + 5 * usPerHour) := by
  have hconv : Int.tdiv T usPerSec = T / usPerSec :=
    Int.tdiv_eq_ediv hT (by norm_num [usPerSec])
  refine ⟨?_, ?_, fun hsub => ⟨?_, ?_⟩, fun hfresh => ?_⟩
  · rw [hconv]; simp only [usPerSec]; omega
  · rw [hconv]; simp only [usPerSec]; omega
  · rw [hconv]; simp only [usPerSec] at hsub ⊢; omega
  · rw [hconv]; simp only [usPerSec, usPerHour] at hsub ⊢; omega
  · rw [calculate_next_run_time_resume_eq now2 _ hrec,
      if_neg (not_le.mpr hfresh)]

/-- Witness for C10: `T` = 1.5 s persists second 1, which is earlier than
`T`, and the resumed schedule is 1 s + 5 h, not 1.5 s + 5 h. -/
theorem persisted_record_is_floor_witness :
    Int.tdiv 1500000 usPerSec * usPerSec ≤ 1500000
    ∧ Int.tdiv 1500000 usPerSec * usPerSec ≠ 1500000
    ∧ calculate_next_run_time 0 none (some (Int.tdiv 1500000 usPerSec))
        = Int.tdiv 1500000 usPerSec * usPerSec + 5 * usPerHour :=
  ⟨(persisted_record_is_floor 1500000 0 (by decide) (by decide)).1,
   ((persisted_record_is_floor 1500000 0 (by decide) (by decide)).2.2.1
      (by decide)).1,
   (persisted_record_is_floor 1500000 0 (by decide) (by decide)).2.2.2
      (by decide)⟩

end ClaudeHealthCheck
